import Mathlib

/-!
A shallow embedding of the core of the swirl background-job runner
(`swirl/src/runner.rs`, `swirl/src/registry.rs`, `swirl/src/runner/event.rs`,
`swirl_proc_macro/src/background_job.rs`), together with theorems checking the
natural-language specification against it.

Machine integers (`i64` ids, `i32` retry counters) are modelled as `Int`/`Nat`;
JSON payloads are opaque tokens; database effects are modelled as explicit
state passing over the `background_jobs` table, with fallible operations
returning `Except`.  Outcomes that depend on the external world (whether the
pool yields a connection, whether the locking query finds a row, whether the
user handler succeeds, fails or panics, whether a statement or the commit
fails) are inputs to the model, mirroring the closures and `Result`s of the
source.
-/

namespace Swirl

/-- Opaque JSON documents (`serde_json::Value`). -/
abbrev Json := String

/-- `PerformError = Box<dyn Error>`: an error from a handler, kept as its message. -/
abbrev PerformError := String

/-- `Pool::Error`: an error acquiring a connection from the pool. -/
abbrev PoolError := String

/-- `diesel::result::Error`, of which the code only distinguishes the
`RollbackTransaction` sentinel from everything else. -/
inductive DieselError
  | rollbackTransaction
  | databaseError (msg : String)
deriving DecidableEq, Repr

/-- The `Debug` rendering of a `DieselError`, used by the panic message
`"Failed to update job: {:?}"`. -/
def DieselError.debugStr : DieselError → String
  | .rollbackTransaction => "RollbackTransaction"
  | .databaseError m => "DatabaseError(" ++ m ++ ")"

/-- A row of the `background_jobs` table (columns used by the runner). -/
structure BackgroundJob where
  id : Int
  job_type : String
  data : Json
  retries : Nat
  last_retry : Nat
deriving DecidableEq, Repr

/-- `runner/event.rs`: the event each worker sends to the orchestrator. -/
inductive Event
  | Working
  | NoJobAvailable
  | ErrorLoadingJob (e : DieselError)
  | FailedToAcquireConnection (e : PoolError)
deriving DecidableEq, Repr

/-- `errors.rs`: the error surfaced by `run_all_pending_jobs`. -/
inductive FetchError
  | NoDatabaseConnection (e : PoolError)
  | FailedLoadingJob (e : DieselError)
  | NoMessageReceived
deriving DecidableEq, Repr

/-- The payload recovered by `catch_unwind`, classified by the downcasts
attempted in `try_to_extract_panic_info` (`PanicInfo`, `&'static str`,
`String`, anything else). -/
inductive PanicPayload
  | panicInfo (s : String)
  | staticStr (s : String)
  | ownedString (s : String)
  | unknown
deriving DecidableEq, Repr

/-- `runner.rs` `try_to_extract_panic_info`: render the recovered panic
payload when it downcasts to one of the known string-carrying shapes. -/
def try_to_extract_panic_info : PanicPayload → PerformError
  | .panicInfo s => "job panicked: " ++ s
  | .staticStr s => "job panicked: " ++ s
  | .ownedString s => "job panicked: " ++ s
  | .unknown => "job panicked"

/-- The three ways the closure handed to `catch_unwind(|| f(job))` can end. -/
inductive HandlerOutcome
  | ok
  | err (e : PerformError)
  | panicked (p : PanicPayload)
deriving DecidableEq, Repr

/-- Modelled from the spec: `delete_successful_job(conn, id)` deletes the row
by id (`swirl/src/storage.rs` is absent from the sources; only its callers
are present). -/
def delete_successful_job (table : List BackgroundJob) (jobId : Int) :
    List BackgroundJob :=
  table.filter (fun r => r.id != jobId)

/-- Modelled from the spec: `update_failed_job(conn, id)` sets
`retries = retries + 1` and `last_retry = now()` on the row with the given id
(`swirl/src/storage.rs` is absent from the sources). -/
def update_failed_job (table : List BackgroundJob) (jobId : Int) (now : Nat) :
    List BackgroundJob :=
  table.map (fun r =>
    if r.id = jobId then { r with retries := r.retries + 1, last_retry := now } else r)

/-- Modelled from the spec: `failed_job_count(conn)` returns the number of
rows whose `last_retry > now() - 1 minute` (`swirl/src/storage.rs` is absent
from the sources). -/
def failed_job_count (table : List BackgroundJob) (now : Nat) : Int :=
  ((table.filter (fun r => now - 60 < r.last_retry)).length : Int)

/-- Whether a row's failure backoff (`1 minute * 2 ^ retries`) has elapsed:
`last_retry < now() - interval`, written additively over `Nat`. -/
def backoff_elapsed (now : Nat) (j : BackgroundJob) : Bool :=
  j.last_retry + 60 * 2 ^ j.retries < now

/-- Modelled from the spec: `find_next_unlocked_job(conn)` returns the
eligible row with the smallest id, ignoring other sessions' locks
(`swirl/src/storage.rs` is absent from the sources). -/
def find_next_unlocked_job (table : List BackgroundJob) (now : Nat) :
    Option BackgroundJob :=
  (table.filter (backoff_elapsed now)).foldl
    (fun acc j =>
      match acc with
      | none => some j
      | some b => if j.id < b.id then some j else some b)
    none

/-- The external outcomes a single worker task can observe, mirroring the
fallible calls inside `Runner::get_single_job`. `handlerOutcome` is the
closure `f` applied to the locked job. -/
structure WorkerInput where
  connResult : Except PoolError Unit
  lockResult : Except DieselError (Option BackgroundJob)
  handlerOutcome : BackgroundJob → HandlerOutcome
  deleteResult : Except DieselError Unit
  commitResult : Except DieselError Unit

/-- One observable step of a worker task, in order: an event sent on the
channel, the handler being invoked on a locked job, or a line logged to
standard error. -/
inductive Action
  | send (e : Event)
  | runHandler (jobId : Int)
  | logLine (s : String)
deriving DecidableEq, Repr

/-- The observable outcome of one worker task: its trace of actions, the
committed state of the `background_jobs` table, and the panic message if the
worker thread panicked. -/
structure WorkerResult where
  trace : List Action
  table : List BackgroundJob
  panicMsg : Option String
deriving Repr

/-- `conn.transaction`: if the closure succeeds the commit is attempted (a
commit failure discards the closure's writes and surfaces the error); if the
closure fails its writes are rolled back and its error is returned. -/
def commitTx (newTable : List BackgroundJob) (commitResult : Except DieselError Unit) :
    Except DieselError (List BackgroundJob) :=
  match commitResult with
  | .ok _ => .ok newTable
  | .error e => .error e

/-- The closure passed to `conn.transaction` in `Runner::get_single_job`:
lock a row, send the corresponding event, dispatch the handler inside
`catch_unwind`, and finalize (delete on success, log and bump retries on
failure). Returns the trace of actions and the transaction outcome (the
committed table on success). -/
def workerTransaction (table : List BackgroundJob) (now : Nat) (inp : WorkerInput) :
    List Action × Except DieselError (List BackgroundJob) :=
  match inp.lockResult with
  | .ok none => ([.send .NoJobAvailable], commitTx table inp.commitResult)
  | .error e => ([.send (.ErrorLoadingJob e)], .error .rollbackTransaction)
  | .ok (some job) =>
    let result : Except PerformError Unit :=
      match inp.handlerOutcome job with
      | .ok => .ok ()
      | .err e => .error e
      | .panicked p => .error (try_to_extract_panic_info p)
    match result with
    | .ok _ =>
      match inp.deleteResult with
      | .ok _ =>
        ([.send .Working, .runHandler job.id],
         commitTx (delete_successful_job table job.id) inp.commitResult)
      | .error e => ([.send .Working, .runHandler job.id], .error e)
    | .error e =>
      ([.send .Working, .runHandler job.id,
        .logLine ("Job " ++ toString job.id ++ " failed to run: " ++ e)],
       commitTx (update_failed_job table job.id now) inp.commitResult)

/-- `Runner::get_single_job`: acquire a connection (or send
`FailedToAcquireConnection` and stop), run the worker transaction, and apply
the outer match: `Ok` or `Err(RollbackTransaction)` end quietly, any other
error panics with `"Failed to update job: {:?}"`. -/
def get_single_job (table : List BackgroundJob) (now : Nat) (inp : WorkerInput) :
    WorkerResult :=
  match inp.connResult with
  | .error e => ⟨[.send (.FailedToAcquireConnection e)], table, none⟩
  | .ok _ =>
    let tx := workerTransaction table now inp
    match tx.2 with
    | .ok t => ⟨tx.1, t, none⟩
    | .error .rollbackTransaction => ⟨tx.1, table, none⟩
    | .error e => ⟨tx.1, table, some ("Failed to update job: " ++ e.debugStr)⟩

/-- The events sent on the channel during a trace. -/
def sendsOf (trace : List Action) : List Event :=
  trace.filterMap (fun a =>
    match a with
    | .send e => some e
    | _ => none)

/-- One receive on the event channel: either a message arrived or
`recv_timeout` elapsed (`Err(_)` in the source). -/
inductive RecvOutcome
  | msg (e : Event)
  | timeout
deriving DecidableEq, Repr

/-- How a run of the `run_all_pending_jobs` loop ends in the model.
`outOfTrace` marks the supplied receive trace running out, where the real
loop would block on the channel again. -/
inductive LoopResult
  | ok
  | fetchErr (e : FetchError)
  | outOfTrace
deriving DecidableEq, Repr

/-- The number of worker tasks submitted in one pass of the loop:
`available_threads` when messages are pending, `max(available_threads, 1)`
otherwise. -/
def jobs_to_queue (maxThreads pending active : Nat) : Nat :=
  if pending = 0 then max (maxThreads - active) 1 else maxThreads - active

/-- `Runner::run_all_pending_jobs`: maintain `pending_messages`, submit
`jobs_to_queue` workers per pass, and interpret one received event per pass.
Parameters beyond the thread-pool maximum: the receive trace, the current
`pending_messages`, and the `active_count()` observed at each pass. Returns
the loop outcome and the total number of worker tasks submitted. -/
def run_all_pending_jobs (maxThreads : Nat) :
    List RecvOutcome → Nat → List Nat → LoopResult × Nat
  | msgs, pending, activeCounts =>
    let tq := jobs_to_queue maxThreads pending (activeCounts.headD 0)
    match msgs with
    | [] => (.outOfTrace, tq)
    | .timeout :: _ => (.fetchErr .NoMessageReceived, tq)
    | .msg .Working :: rest =>
      let pr := run_all_pending_jobs maxThreads rest (pending + tq - 1) activeCounts.tail
      (pr.1, tq + pr.2)
    | .msg .NoJobAvailable :: _ => (.ok, tq)
    | .msg (.ErrorLoadingJob e) :: _ => (.fetchErr (.FailedLoadingJob e), tq)
    | .msg (.FailedToAcquireConnection e) :: _ => (.fetchErr (.NoDatabaseConnection e), tq)

/-- `&dyn Any`: an opaque environment value together with its runtime type
identity (`TypeId` modelled as `Nat`). -/
structure DynEnv (V : Type) where
  typeId : Nat
  val : V

/-- `registry.rs` `JobVTable`: the environment type identity, the job-type
tag, and the pieces of `perform_job::<T>` (payload deserializer and user
handler, both fixed by `T`). -/
structure JobVTable (P V : Type) where
  env_type : Nat
  job_type : String
  deserialize : Json → Except PerformError P
  handler : P → V → Except PerformError Unit

/-- The error built when the opaque environment fails to downcast to the
entry's declared environment type. -/
def incorrectEnvironmentMsg : String :=
  "Incorrect environment type. This should never happen. Please open an issue at https://github.com/sgrif/swirl/issues/new"

/-- `registry.rs` `perform_job::<T>`: downcast the opaque environment (error
if the type identity differs), deserialize the payload, then run the user
handler. The second component records whether the user handler was invoked. -/
def perform_job {P V : Type} (vt : JobVTable P V) (data : Json) (env : DynEnv V) :
    Except PerformError Unit × Bool :=
  if env.typeId = vt.env_type then
    match vt.deserialize data with
    | .error e => (.error e, false)
    | .ok p => (vt.handler p env.val, true)
  else (.error incorrectEnvironmentMsg, false)

/-- `Registry::load` for a runner with environment type identity `envId`:
keep exactly the statically collected entries whose `env_type` matches,
keyed by their job-type tag. -/
def Registry.load {P V : Type} (allEntries : List (JobVTable P V)) (envId : Nat) :
    List (String × JobVTable P V) :=
  (allEntries.filter (fun vt => vt.env_type = envId)).map (fun vt => (vt.job_type, vt))

/-- `Registry::get`: look the tag up in the map. The reversal models the
`HashMap` collect of the source, where a later duplicate key wins. -/
def Registry.get {P V : Type} (reg : List (String × JobVTable P V)) (jobType : String) :
    Option (JobVTable P V) :=
  List.lookup jobType reg.reverse

/-- The closure built in `Runner::run_single_job`: look the locked job's type
up in the registry — absent tags become the error `"Unknown job type <tag>"` —
and otherwise dispatch through `perform_job`. The second component records
whether the user handler was invoked. -/
def jobClosure {P V : Type} (reg : List (String × JobVTable P V)) (env : DynEnv V)
    (job : BackgroundJob) : Except PerformError Unit × Bool :=
  match Registry.get reg job.job_type with
  | none => (.error ("Unknown job type " ++ job.job_type), false)
  | some vt => perform_job vt job.data env

/-- `Runner::run_single_job`: `get_single_job` with the registry-dispatch
closure as the handler. The dispatch itself cannot panic, so its outcome is
`ok` or `err`. -/
def run_single_job {P V : Type} (table : List BackgroundJob) (now : Nat)
    (reg : List (String × JobVTable P V)) (env : DynEnv V)
    (connResult : Except PoolError Unit)
    (lockResult : Except DieselError (Option BackgroundJob))
    (deleteResult commitResult : Except DieselError Unit) : WorkerResult :=
  get_single_job table now
    ⟨connResult, lockResult,
     fun j =>
       match (jobClosure reg env j).1 with
       | .ok _ => .ok
       | .error e => .err e,
     deleteResult, commitResult⟩

/-- Modelled from the spec: `FailedJobsError`, the error surfaced by
`check_for_failed_jobs` — `JobsFailed(n)` or an opaque wrapped error
(`swirl/src/errors.rs` in the sources lacks this type; only its uses are
present). -/
inductive FailedJobsError
  | JobsFailed (n : Int)
  | otherErr (msg : String)
deriving DecidableEq, Repr

/-- `Runner::wait_for_jobs`: join the thread pool, then report the panic
count as an error unless it is zero. -/
def wait_for_jobs (panicCount : Nat) : Except String Unit :=
  if panicCount = 0 then .ok () else .error (toString panicCount ++ " threads panicked")

/-- The outcome of `check_for_failed_jobs`, plus whether the failed-job count
was queried from the database (false when the call returned before reaching
the query). -/
structure CheckResult where
  result : Except FailedJobsError Unit
  queriedDb : Bool
deriving Repr

/-- `Runner::check_for_failed_jobs`: wait for in-flight tasks (propagating a
panic-count error), acquire a connection, read `failed_job_count`, and fail
with `JobsFailed(n)` unless the count is zero. -/
def check_for_failed_jobs (panicCount : Nat) (connResult : Except String Unit)
    (countResult : Except DieselError Unit) (table : List BackgroundJob) (now : Nat) :
    CheckResult :=
  match wait_for_jobs panicCount with
  | .error e => ⟨.error (.otherErr e), false⟩
  | .ok _ =>
    match connResult with
    | .error e => ⟨.error (.otherErr e), false⟩
    | .ok _ =>
      match countResult with
      | .error e => ⟨.error (.otherErr e.debugStr), true⟩
      | .ok _ =>
        let n := failed_job_count table now
        if n = 0 then ⟨.ok (), true⟩ else ⟨.error (.JobsFailed n), true⟩

namespace Codegen

/-! A model of the argument classification in
`swirl_proc_macro/src/background_job.rs`: the aspects of `syn` types the code
inspects (whether a type is a reference and whether it is mutable; the last
path segment's identifier and whether it carries arguments; the trait bounds
of a trait object). -/

/-- The last segment of a `syn::Path` as consulted by `path_ends_with`. -/
structure PathTy where
  lastIdent : String
  argsEmpty : Bool
deriving DecidableEq, Repr

/-- The shapes of `syn::Type` the macro distinguishes. `tuple0` is the empty
tuple type `()` used as the default environment type. -/
inductive Ty
  | path (p : PathTy)
  | traitObject (bounds : List PathTy)
  | ref (mutable : Bool) (elem : Ty)
  | tuple0
  | otherTy
deriving DecidableEq, Repr

/-- The shapes of `syn::Pat` the macro distinguishes: a plain binding
(possibly `mut`), the wildcard (used for the default environment pattern),
and everything else. -/
inductive Pat
  | ident (name : String)
  | wild
  | complex
deriving DecidableEq, Repr

/-- `path_ends_with`: the last segment has no arguments and matches. -/
def path_ends_with (p : PathTy) (needle : String) : Bool :=
  p.argsEmpty && p.lastIdent == needle

/-- `ConnectionArg::is_single_connection`: a path type ending in
`PgConnection`. -/
def is_single_connection : Ty → Bool
  | .path p => path_ends_with p "PgConnection"
  | _ => false

/-- `ConnectionArg::is_pool`: a trait object with a bound ending in
`DieselPoolObj`. -/
def is_pool : Ty → Bool
  | .traitObject bounds => bounds.any (fun b => path_ends_with b "DieselPoolObj")
  | _ => false

/-- `ConnectionArg::is_connection_arg`. -/
def is_connection_arg (ty : Ty) : Bool :=
  is_single_connection ty || is_pool ty

/-- A typed function argument (`syn::PatType`). -/
structure PatType where
  pat : Pat
  ty : Ty
deriving DecidableEq, Repr

/-- A function argument (`syn::FnArg`): `self` or a typed pattern. -/
inductive FnArg
  | receiver
  | typed (pt : PatType)
deriving DecidableEq, Repr

/-- The recorded environment argument; defaults to `_ : ()`. -/
structure EnvArg where
  pat : Pat
  ty : Ty
deriving DecidableEq, Repr

/-- `EnvArg::default()`: pattern `_`, type `()`. -/
def EnvArg.defaultArg : EnvArg := ⟨.wild, .tuple0⟩

/-- `ConnectionArg`: no connection argument, a single `&PgConnection`, or a
pool trait object. -/
inductive ConnectionArg
  | noneArg
  | singleConnection (pat : Pat)
  | pool (pat : Pat) (ty : Ty)
deriving DecidableEq, Repr

/-- The classification produced by `Arg::try_from`. -/
inductive Arg
  | env (a : EnvArg)
  | connection (c : ConnectionArg)
  | normal (pt : PatType)
deriving DecidableEq, Repr

/-- `Arg::try_from`: a mutable reference is rejected; an immutable reference
is a connection argument when its element type is connection-kind and the
environment otherwise; a non-reference is a normal argument. -/
def Arg.tryFrom (pt : PatType) : Except String Arg :=
  match pt.ty with
  | .ref mutable elem =>
    if mutable then .error "Unexpected `mut`"
    else if is_single_connection elem then .ok (.connection (.singleConnection pt.pat))
    else if is_pool elem then .ok (.connection (.pool pt.pat elem))
    else .ok (.env ⟨pt.pat, elem⟩)
  | _ => .ok (.normal pt)

/-- The result of `JobArgs::try_from`. -/
structure JobArgs where
  env_arg : EnvArg
  connection_arg : ConnectionArg
  args : List PatType
deriving DecidableEq, Repr

/-- The fold inside `JobArgs::try_from` over the declaration's arguments:
reject `self` and non-plain patterns, record the first environment reference
(a second one is an error), record the first connection argument (a second
one is an error), and keep the rest as payload fields. -/
def jobArgsGo : Option EnvArg → ConnectionArg → List PatType → List FnArg →
    Except String JobArgs
  | envArg, connArg, acc, [] => .ok ⟨envArg.getD EnvArg.defaultArg, connArg, acc.reverse⟩
  | envArg, connArg, acc, fnArg :: rest =>
    match fnArg with
    | .receiver => .error "Background jobs cannot take self"
    | .typed pt =>
      match pt.pat with
      | .ident _ =>
        match Arg.tryFrom pt with
        | .error e => .error e
        | .ok (.env a) =>
          match envArg with
          | none => jobArgsGo (some a) connArg acc rest
          | some _ => .error "Background jobs cannot take references as arguments"
        | .ok (.connection c) =>
          match connArg with
          | .noneArg => jobArgsGo envArg c acc rest
          | _ => .error "Multiple database connection arguments"
        | .ok (.normal p) => jobArgsGo envArg connArg (p :: acc) rest
      | _ => .error "#[swirl::background_job] cannot yet handle patterns"

/-- `JobArgs::try_from`: classify every declared argument. The generated
`impl swirl::Job` uses `env_arg.ty` as `type Environment`. -/
def JobArgs.tryFrom (inputs : List FnArg) : Except String JobArgs :=
  jobArgsGo none .noneArg [] inputs

/-- A non-mutable reference argument that the macro would record as the
environment (not connection-kind). -/
def isEnvReference (ty : Ty) : Bool :=
  match ty with
  | .ref false elem => !is_connection_arg elem
  | _ => false

end Codegen

/-! Helper lemmas -/

/-- `update_failed_job` never removes an id from the table: the row is
mapped in place. -/
theorem update_failed_job_keeps_id (table : List BackgroundJob) (jobId : Int) (now : Nat)
    (r : BackgroundJob) (hr : r ∈ table) :
    ∃ r' ∈ update_failed_job table jobId now, r'.id = r.id := by
  refine ⟨if r.id = jobId then { r with retries := r.retries + 1, last_retry := now } else r,
    List.mem_map_of_mem _ hr, ?_⟩
  split <;> rfl

/-- `delete_successful_job` keeps every row whose id differs from the
deleted one. -/
theorem delete_successful_job_keeps_other (table : List BackgroundJob) (jobId : Int)
    (r : BackgroundJob) (hr : r ∈ table) (hne : r.id ≠ jobId) :
    r ∈ delete_successful_job table jobId := by
  exact List.mem_filter.mpr ⟨hr, by simpa [bne_iff_ne] using hne⟩

/-! Claim theorems -/

/-- Claim C1: for every worker-task attempt that locks a job row, a
successful handler deletes the row inside the transaction, a failed handler
leaves the row with `retries` incremented and `last_retry` set inside the
same transaction, and a row is never deleted unless its handler returned
success. -/
theorem c1_lock_finalize (table : List BackgroundJob) (now : Nat) (inp : WorkerInput)
    (j : BackgroundJob)
    (hconn : inp.connResult = .ok ())
    (hlock : inp.lockResult = .ok (some j))
    (hdel : inp.deleteResult = .ok ())
    (hcom : inp.commitResult = .ok ()) :
    (inp.handlerOutcome j = .ok →
      (get_single_job table now inp).table = delete_successful_job table j.id) ∧
    (inp.handlerOutcome j ≠ .ok →
      (get_single_job table now inp).table = update_failed_job table j.id now) ∧
    (∀ (inp' : WorkerInput) (r : BackgroundJob), r ∈ table →
      (∀ r' ∈ (get_single_job table now inp').table, r'.id ≠ r.id) →
      ∃ j', inp'.lockResult = .ok (some j') ∧ j'.id = r.id ∧
        inp'.handlerOutcome j' = .ok) := by
  obtain ⟨cr, lr, ho, dr, cm⟩ := inp
  simp only [WorkerInput.mk.injEq] at *
  subst hconn; subst hlock; subst hdel; subst hcom
  refine ⟨?_, ?_, ?_⟩
  · intro hok
    simp [get_single_job, workerTransaction, commitTx, hok]
  · intro hne
    cases hho : ho j with
    | ok => exact absurd hho hne
    | err e => simp [get_single_job, workerTransaction, commitTx, hho]
    | panicked p => simp [get_single_job, workerTransaction, commitTx, hho]
  · intro inp' r hr habs
    obtain ⟨cr', lr', ho', dr', cm'⟩ := inp'
    cases cr' with
    | error e => exact absurd rfl (habs r hr)
    | ok u =>
      cases u
      cases lr' with
      | error e => exact absurd rfl (habs r hr)
      | ok o =>
        cases o with
        | none =>
          cases cm' with
          | ok u' => cases u'; exact absurd rfl (habs r hr)
          | error e =>
            cases e with
            | rollbackTransaction => exact absurd rfl (habs r hr)
            | databaseError m => exact absurd rfl (habs r hr)
        | some j' =>
          refine ⟨j', rfl, ?_⟩
          cases hho : ho' j' with
          | ok =>
            cases dr' with
            | error e =>
              exfalso
              cases e with
              | rollbackTransaction =>
                exact absurd rfl
                  (habs r (by simp [get_single_job, workerTransaction, hho]; exact hr))
              | databaseError m =>
                exact absurd rfl
                  (habs r (by simp [get_single_job, workerTransaction, hho]; exact hr))
            | ok u' =>
              cases u'
              cases cm' with
              | error e =>
                exfalso
                cases e with
                | rollbackTransaction =>
                  exact absurd rfl
                    (habs r (by simp [get_single_job, workerTransaction, commitTx, hho]; exact hr))
                | databaseError m =>
                  exact absurd rfl
                    (habs r (by simp [get_single_job, workerTransaction, commitTx, hho]; exact hr))
              | ok u'' =>
                cases u''
                constructor
                · by_contra hne
                  refine absurd rfl (habs r ?_)
                  have hmem := delete_successful_job_keeps_other table j'.id r hr
                    (by intro h; exact hne (h ▸ rfl))
                  simpa [get_single_job, workerTransaction, commitTx, hho] using hmem
                · exact hho
          | err e =>
            exfalso
            obtain ⟨r', hr', hid⟩ := update_failed_job_keeps_id table j'.id now r hr
            cases cm' with
            | ok u' =>
              cases u'
              exact absurd hid (habs r' (by
                simpa [get_single_job, workerTransaction, commitTx, hho] using hr'))
            | error ce =>
              cases ce with
              | rollbackTransaction =>
                exact absurd rfl
                  (habs r (by simp [get_single_job, workerTransaction, commitTx, hho]; exact hr))
              | databaseError m =>
                exact absurd rfl
                  (habs r (by simp [get_single_job, workerTransaction, commitTx, hho]; exact hr))
          | panicked p =>
            exfalso
            obtain ⟨r', hr', hid⟩ := update_failed_job_keeps_id table j'.id now r hr
            cases cm' with
            | ok u' =>
              cases u'
              exact absurd hid (habs r' (by
                simpa [get_single_job, workerTransaction, commitTx, hho] using hr'))
            | error ce =>
              cases ce with
              | rollbackTransaction =>
                exact absurd rfl
                  (habs r (by simp [get_single_job, workerTransaction, commitTx, hho]; exact hr))
              | databaseError m =>
                exact absurd rfl
                  (habs r (by simp [get_single_job, workerTransaction, commitTx, hho]; exact hr))


/-- Claim C2: every submitted worker task sends exactly one event on the
channel — `Working` (before the handler runs) when the locking query returned
a row, `NoJobAvailable` iff it returned no row, `ErrorLoadingJob` when it
failed, and `FailedToAcquireConnection` when no connection could be obtained
from the pool. -/
theorem c2_one_event_per_worker (table : List BackgroundJob) (now : Nat)
    (inp : WorkerInput) :
    (sendsOf (get_single_job table now inp).trace).length = 1 ∧
    (∀ e, inp.connResult = .error e →
      (get_single_job table now inp).trace = [.send (.FailedToAcquireConnection e)]) ∧
    (inp.connResult = .ok () → inp.lockResult = .ok none →
      (get_single_job table now inp).trace = [.send .NoJobAvailable]) ∧
    (∀ e, inp.connResult = .ok () → inp.lockResult = .error e →
      (get_single_job table now inp).trace = [.send (.ErrorLoadingJob e)]) ∧
    (∀ j, inp.connResult = .ok () → inp.lockResult = .ok (some j) →
      ∃ rest, (get_single_job table now inp).trace =
          .send .Working :: .runHandler j.id :: rest ∧ sendsOf rest = []) := by
  obtain ⟨cr, lr, ho, dr, cm⟩ := inp
  refine ⟨?_, ?_, ?_, ?_, ?_⟩
  · cases cr with
    | error e => simp [get_single_job, sendsOf]
    | ok u =>
      cases u
      cases lr with
      | error e =>
        simp [get_single_job, workerTransaction, sendsOf]
      | ok o =>
        cases o with
        | none =>
          cases cm with
          | ok u' => cases u'; simp [get_single_job, workerTransaction, commitTx, sendsOf]
          | error e =>
            cases e <;> simp [get_single_job, workerTransaction, commitTx, sendsOf]
        | some j =>
          cases hho : ho j with
          | ok =>
            cases dr with
            | ok u' =>
              cases u'
              cases cm with
              | ok u'' =>
                cases u''
                simp [get_single_job, workerTransaction, commitTx, hho, sendsOf]
              | error e =>
                cases e <;> simp [get_single_job, workerTransaction, commitTx, hho, sendsOf]
            | error e =>
              cases e <;> simp [get_single_job, workerTransaction, commitTx, hho, sendsOf]
          | err e =>
            cases cm with
            | ok u' =>
              cases u'
              simp [get_single_job, workerTransaction, commitTx, hho, sendsOf]
            | error ce =>
              cases ce <;> simp [get_single_job, workerTransaction, commitTx, hho, sendsOf]
          | panicked p =>
            cases cm with
            | ok u' =>
              cases u'
              simp [get_single_job, workerTransaction, commitTx, hho, sendsOf]
            | error ce =>
              cases ce <;> simp [get_single_job, workerTransaction, commitTx, hho, sendsOf]
  · intro e he
    simp only at he
    subst he
    simp [get_single_job]
  · intro hc hl
    simp only at hc hl
    subst hc; subst hl
    cases cm with
    | ok u' => cases u'; simp [get_single_job, workerTransaction, commitTx]
    | error e =>
      cases e <;> simp [get_single_job, workerTransaction, commitTx]
  · intro e hc hl
    simp only at hc hl
    subst hc; subst hl
    simp [get_single_job, workerTransaction]
  · intro j hc hl
    simp only at hc hl
    subst hc; subst hl
    cases hho : ho j with
    | ok =>
      cases dr with
      | ok u' =>
        cases u'
        cases cm with
        | ok u'' =>
          cases u''
          exact ⟨[], by simp [get_single_job, workerTransaction, commitTx, hho, sendsOf]⟩
        | error e =>
          cases e <;>
            exact ⟨[], by simp [get_single_job, workerTransaction, commitTx, hho, sendsOf]⟩
      | error e =>
        cases e <;>
          exact ⟨[], by simp [get_single_job, workerTransaction, commitTx, hho, sendsOf]⟩
    | err e =>
      refine ⟨[.logLine ("Job " ++ toString j.id ++ " failed to run: " ++ e)], ?_,
        by simp [sendsOf]⟩
      cases cm with
      | ok u' => cases u'; simp [get_single_job, workerTransaction, commitTx, hho]
      | error ce =>
        cases ce <;> simp [get_single_job, workerTransaction, commitTx, hho]
    | panicked p =>
      refine ⟨[.logLine ("Job " ++ toString j.id ++ " failed to run: "
          ++ try_to_extract_panic_info p)], ?_, by simp [sendsOf]⟩
      cases cm with
      | ok u' => cases u'; simp [get_single_job, workerTransaction, commitTx, hho]
      | error ce =>
        cases ce <;> simp [get_single_job, workerTransaction, commitTx, hho]

/-- String append is associative (helper for splitting a literal off a
message). -/
theorem str_append_assoc (a b c : String) : (a ++ b) ++ c = a ++ (b ++ c) := by
  cases a with
  | mk la =>
    cases b with
    | mk lb =>
      cases c with
      | mk lc =>
        show String.mk ((la ++ lb) ++ lc) = String.mk (la ++ (lb ++ lc))
        rw [List.append_assoc]

/-- Claim C6: a handler panic is caught and converted to a handler error —
`"job panicked: <payload>"` for the known string-carrying payload shapes
(`PanicInfo`, `&'static str`, `String`) and `"job panicked"` otherwise; the
worker thread is not terminated and the row's retry counter is incremented
exactly once. -/
theorem c6_panic_caught (table : List BackgroundJob) (now : Nat) (inp : WorkerInput)
    (j : BackgroundJob) (p : PanicPayload)
    (hconn : inp.connResult = .ok ())
    (hlock : inp.lockResult = .ok (some j))
    (hout : inp.handlerOutcome j = .panicked p)
    (hcom : inp.commitResult = .ok ()) :
    (∀ s, p = .panicInfo s ∨ p = .staticStr s ∨ p = .ownedString s →
      try_to_extract_panic_info p = "job panicked: " ++ s) ∧
    (p = .unknown → try_to_extract_panic_info p = "job panicked") ∧
    (get_single_job table now inp).panicMsg = none ∧
    (get_single_job table now inp).table = update_failed_job table j.id now ∧
    (get_single_job table now inp).trace =
      [.send .Working, .runHandler j.id,
       .logLine ("Job " ++ toString j.id ++ " failed to run: "
         ++ try_to_extract_panic_info p)] := by
  obtain ⟨cr, lr, ho, dr, cm⟩ := inp
  simp only at hconn hlock hout hcom
  subst hconn; subst hlock; subst hcom
  refine ⟨?_, ?_, ?_, ?_, ?_⟩
  · rintro s (rfl | rfl | rfl) <;> rfl
  · rintro rfl; rfl
  · simp [get_single_job, workerTransaction, commitTx, hout]
  · simp [get_single_job, workerTransaction, commitTx, hout]
  · simp [get_single_job, workerTransaction, commitTx, hout]

/-- Claim C10: when the handler succeeds but the row deletion (or the
commit) fails with anything other than the `RollbackTransaction` sentinel,
the transaction is rolled back — the row keeps its `retries` and
`last_retry` — and the worker thread panics with a message starting
`"Failed to update job"`. -/
theorem c10_failed_finalize_panics (table : List BackgroundJob) (now : Nat)
    (inp : WorkerInput) (j : BackgroundJob) (e : DieselError)
    (hconn : inp.connResult = .ok ())
    (hlock : inp.lockResult = .ok (some j))
    (hok : inp.handlerOutcome j = .ok)
    (he : e ≠ DieselError.rollbackTransaction)
    (hfail : inp.deleteResult = .error e ∨
      (inp.deleteResult = .ok () ∧ inp.commitResult = .error e)) :
    (get_single_job table now inp).table = table ∧
    (get_single_job table now inp).panicMsg =
      some ("Failed to update job" ++ (": " ++ e.debugStr)) := by
  obtain ⟨cr, lr, ho, dr, cm⟩ := inp
  simp only at hconn hlock hok hfail
  subst hconn; subst hlock
  have hmsg : ("Failed to update job: " ++ e.debugStr)
      = "Failed to update job" ++ (": " ++ e.debugStr) := by
    rw [← str_append_assoc]
    rfl
  rcases hfail with hdel | ⟨hdel, hcm⟩
  · subst hdel
    cases e with
    | rollbackTransaction => exact absurd rfl he
    | databaseError m =>
      constructor
      · simp [get_single_job, workerTransaction, commitTx, hok]
      · rw [← hmsg]
        simp [get_single_job, workerTransaction, commitTx, hok]
  · subst hdel; subst hcm
    cases e with
    | rollbackTransaction => exact absurd rfl he
    | databaseError m =>
      constructor
      · simp [get_single_job, workerTransaction, commitTx, hok]
      · rw [← hmsg]
        simp [get_single_job, workerTransaction, commitTx, hok]

/-- Claim C3: event handling in `run_all_pending_jobs` — `Working` decrements
`pending_messages` (after the batch increment) and the loop continues;
`NoJobAvailable` returns success; `ErrorLoadingJob(e)` returns
`FetchError::FailedLoadingJob(e)`; `FailedToAcquireConnection(e)` returns
`FetchError::NoDatabaseConnection(e)`; a timeout with no message returns
`FetchError::NoMessageReceived`. -/
theorem c3_orchestrator_event_handling (maxThreads pending : Nat) (ac : List Nat) :
    (∀ rest, run_all_pending_jobs maxThreads (.msg .Working :: rest) pending ac =
      ((run_all_pending_jobs maxThreads rest
          (pending + jobs_to_queue maxThreads pending (ac.headD 0) - 1) ac.tail).1,
        jobs_to_queue maxThreads pending (ac.headD 0) +
          (run_all_pending_jobs maxThreads rest
            (pending + jobs_to_queue maxThreads pending (ac.headD 0) - 1) ac.tail).2)) ∧
    (∀ rest, run_all_pending_jobs maxThreads (.msg .NoJobAvailable :: rest) pending ac =
      (.ok, jobs_to_queue maxThreads pending (ac.headD 0))) ∧
    (∀ e rest, run_all_pending_jobs maxThreads (.msg (.ErrorLoadingJob e) :: rest) pending ac =
      (.fetchErr (.FailedLoadingJob e), jobs_to_queue maxThreads pending (ac.headD 0))) ∧
    (∀ e rest,
      run_all_pending_jobs maxThreads (.msg (.FailedToAcquireConnection e) :: rest) pending ac =
        (.fetchErr (.NoDatabaseConnection e), jobs_to_queue maxThreads pending (ac.headD 0))) ∧
    (∀ rest, run_all_pending_jobs maxThreads (.timeout :: rest) pending ac =
      (.fetchErr .NoMessageReceived, jobs_to_queue maxThreads pending (ac.headD 0))) :=
  ⟨fun _ => rfl, fun _ => rfl, fun _ _ => rfl, fun _ _ => rfl, fun _ => rfl⟩

/-- A worker input describing an attempt against an empty queue: the
connection is obtained and the locking query runs over an empty table. -/
def emptyQueueWorkerInput : WorkerInput :=
  ⟨.ok (), .ok (find_next_unlocked_job [] 100), fun _ => .ok, .ok (), .ok ()⟩

/-- Claim C4 counterexample: on an empty queue a worker reports
`NoJobAvailable`, and with the default five-thread pool (zero active
workers) `run_all_pending_jobs` returns success after submitting five worker
tasks, not exactly one. -/
theorem c4_counterexample :
    (get_single_job [] 100 emptyQueueWorkerInput).trace = [.send .NoJobAvailable] ∧
    run_all_pending_jobs 5 [.msg .NoJobAvailable] 0 [0] = (.ok, 5) ∧
    (5 : Nat) ≠ 1 :=
  ⟨rfl, rfl, by decide⟩

/-- Claim C4 amended: on an empty queue `run_all_pending_jobs` returns
success, and the number of worker tasks it submits before returning is
`max(max_threads - active_threads, 1)` — at least one, and exactly one
precisely when that quantity is 1 (for instance a single-thread pool). -/
theorem c4_empty_queue (maxThreads active now : Nat) :
    (get_single_job [] now
        ⟨.ok (), .ok (find_next_unlocked_job [] now), fun _ => .ok, .ok (), .ok ()⟩).trace
      = [.send .NoJobAvailable] ∧
    run_all_pending_jobs maxThreads [.msg .NoJobAvailable] 0 [active] =
      (.ok, max (maxThreads - active) 1) ∧
    1 ≤ (run_all_pending_jobs maxThreads [.msg .NoJobAvailable] 0 [active]).2 := by
  refine ⟨rfl, rfl, ?_⟩
  show 1 ≤ max (maxThreads - active) 1
  exact le_max_right _ _

/-- Witness for the amended claim C4 at a two-thread pool with no active
workers: success, two tasks submitted. -/
theorem c4_empty_queue_witness :
    run_all_pending_jobs 2 [.msg .NoJobAvailable] 0 [0] = (.ok, 2) :=
  (c4_empty_queue 2 0 100).2.1

/-- Claim C5: a locked row whose `job_type` has no entry in the registry
dispatches to the error `"Unknown job type <tag>"`, which is handled as a
normal job failure: the retry counter is incremented exactly once, the
failure is logged, the worker does not panic, and only `Working` reaches the
orchestrator. -/
theorem c5_unknown_job_type {P V : Type} (table : List BackgroundJob) (now : Nat)
    (reg : List (String × JobVTable P V)) (env : DynEnv V) (j : BackgroundJob)
    (hreg : Registry.get reg j.job_type = none) :
    (jobClosure reg env j).1 = .error ("Unknown job type " ++ j.job_type) ∧
    (run_single_job table now reg env (.ok ()) (.ok (some j)) (.ok ()) (.ok ())).table
      = update_failed_job table j.id now ∧
    (run_single_job table now reg env (.ok ()) (.ok (some j)) (.ok ()) (.ok ())).panicMsg
      = none ∧
    sendsOf (run_single_job table now reg env (.ok ()) (.ok (some j)) (.ok ()) (.ok ())).trace
      = [.Working] ∧
    .logLine ("Job " ++ toString j.id ++ " failed to run: "
        ++ ("Unknown job type " ++ j.job_type))
      ∈ (run_single_job table now reg env (.ok ()) (.ok (some j)) (.ok ()) (.ok ())).trace := by
  have hclosure : (jobClosure reg env j).1 = .error ("Unknown job type " ++ j.job_type) := by
    simp [jobClosure, hreg]
  refine ⟨hclosure, ?_, ?_, ?_, ?_⟩ <;>
    simp [run_single_job, get_single_job, workerTransaction, commitTx, jobClosure, hreg,
      sendsOf]

/-- Every entry of a loaded registry carries the environment type identity
the registry was loaded for. -/
theorem registry_load_env_type {P V : Type} (allEntries : List (JobVTable P V)) (e1 : Nat)
    (jt : String) (entry : JobVTable P V)
    (h : (jt, entry) ∈ Registry.load allEntries e1) : entry.env_type = e1 := by
  obtain ⟨vt, hvt, heq⟩ := List.mem_map.mp h
  obtain ⟨_, hfil⟩ := List.mem_filter.mp hvt
  have hsnd : vt = entry := congrArg Prod.snd heq
  subst hsnd
  exact of_decide_eq_true hfil

/-- Claim C7: `Registry::load` for a runner with environment type `E1` keeps
only entries recorded for `E1` — entries registered for a different
environment type never appear — and when the opaque environment fails to
downcast to an entry's declared type, `perform_job` returns the structured
"Incorrect environment type." error without executing the handler. -/
theorem c7_environment_isolation {P V : Type} (allEntries : List (JobVTable P V))
    (e1 : Nat) (vt : JobVTable P V) (data : Json) (env : DynEnv V) :
    (∀ jt entry, (jt, entry) ∈ Registry.load allEntries e1 → entry.env_type = e1) ∧
    (∀ entry ∈ allEntries, entry.env_type ≠ e1 →
      ∀ jt, (jt, entry) ∉ Registry.load allEntries e1) ∧
    (env.typeId ≠ vt.env_type →
      perform_job vt data env = (.error incorrectEnvironmentMsg, false) ∧
      ∃ rest, incorrectEnvironmentMsg = "Incorrect environment type." ++ rest) := by
  refine ⟨fun jt entry h => registry_load_env_type allEntries e1 jt entry h, ?_, ?_⟩
  · intro entry _ hne jt hmem
    exact hne (registry_load_env_type allEntries e1 jt entry hmem)
  · intro hne
    refine ⟨?_, " This should never happen. Please open an issue at https://github.com/sgrif/swirl/issues/new", rfl⟩
    simp [perform_job, hne]

/-- Claim C8: `check_for_failed_jobs` first waits for in-flight workers — a
nonzero panic count yields the opaque `"<k> threads panicked"` error without
touching the database; otherwise it reads `failed_job_count` and returns
`JobsFailed(n)` iff `n > 0`, success when `n = 0`. -/
theorem c8_check_for_failed_jobs (panicCount : Nat) (connResult : Except String Unit)
    (countResult : Except DieselError Unit) (table : List BackgroundJob) (now : Nat) :
    (0 < panicCount →
      check_for_failed_jobs panicCount connResult countResult table now =
        ⟨.error (.otherErr (toString panicCount ++ " threads panicked")), false⟩) ∧
    (panicCount = 0 → connResult = .ok () → countResult = .ok () →
      (failed_job_count table now = 0 →
        check_for_failed_jobs panicCount connResult countResult table now = ⟨.ok (), true⟩) ∧
      (0 < failed_job_count table now →
        check_for_failed_jobs panicCount connResult countResult table now =
          ⟨.error (.JobsFailed (failed_job_count table now)), true⟩) ∧
      ((check_for_failed_jobs panicCount connResult countResult table now).result = .ok ()
        ↔ failed_job_count table now = 0)) := by
  constructor
  · intro hpos
    have hne : panicCount ≠ 0 := Nat.pos_iff_ne_zero.mp hpos
    simp [check_for_failed_jobs, wait_for_jobs, hne]
  · intro hp hconn hcount
    subst hp; subst hconn; subst hcount
    refine ⟨?_, ?_, ?_⟩
    · intro hzero
      simp [check_for_failed_jobs, wait_for_jobs, hzero]
    · intro hpos
      have hne : failed_job_count table now ≠ 0 := ne_of_gt hpos
      simp [check_for_failed_jobs, wait_for_jobs, hne]
    · by_cases hzero : failed_job_count table now = 0
      · simp [check_for_failed_jobs, wait_for_jobs, hzero]
      · simp [check_for_failed_jobs, wait_for_jobs, hzero]

namespace Codegen

/-- Claim C9 counterexample: a handler whose first parameter is a plain
`i32` and whose second parameter is `&MyEnv` is accepted, and the generated
environment type is `MyEnv`, not the unit type — so "first parameter not a
reference implies unit environment" fails on the code. -/
theorem c9_counterexample :
    JobArgs.tryFrom
        [.typed ⟨.ident "x", .path ⟨"i32", true⟩⟩,
         .typed ⟨.ident "env", .ref false (.path ⟨"MyEnv", true⟩)⟩]
      = .ok ⟨⟨.ident "env", .path ⟨"MyEnv", true⟩⟩, .noneArg,
             [⟨.ident "x", .path ⟨"i32", true⟩⟩]⟩ ∧
    (Ty.path ⟨"MyEnv", true⟩) ≠ Ty.tuple0 :=
  ⟨rfl, by decide⟩

/-- Once an environment argument has been recorded, the rest of the fold
either fails or returns it unchanged. -/
theorem jobArgsGo_env_fixed (a : EnvArg) (c : ConnectionArg) (acc : List PatType)
    (inputs : List FnArg) (ja : JobArgs)
    (h : jobArgsGo (some a) c acc inputs = .ok ja) : ja.env_arg = a := by
  induction inputs generalizing c acc with
  | nil =>
    simp only [jobArgsGo, Except.ok.injEq] at h
    subst h
    rfl
  | cons fnArg rest ih =>
    cases fnArg with
    | receiver => simp [jobArgsGo] at h
    | typed pt =>
      obtain ⟨pat, ty⟩ := pt
      cases pat with
      | wild => simp [jobArgsGo] at h
      | complex => simp [jobArgsGo] at h
      | ident name =>
        cases ha : Arg.tryFrom ⟨.ident name, ty⟩ with
        | error e => simp [jobArgsGo, ha] at h
        | ok arg =>
          cases arg with
          | env a' => simp [jobArgsGo, ha] at h
          | connection c' =>
            cases c with
            | noneArg =>
              exact ih c' acc (by simpa [jobArgsGo, ha] using h)
            | singleConnection p => simp [jobArgsGo, ha] at h
            | pool p t => simp [jobArgsGo, ha] at h
          | normal p =>
            exact ih c (p :: acc) (by simpa [jobArgsGo, ha] using h)

/-- `Arg::try_from` classifies an argument as the environment only when its
type is a non-`mut` reference to a non-connection type. -/
theorem argTryFrom_env_ref (pt : PatType) (a : EnvArg)
    (h : Arg.tryFrom pt = .ok (.env a)) : isEnvReference pt.ty = true := by
  obtain ⟨pat, ty⟩ := pt
  cases ty with
  | path p => simp [Arg.tryFrom] at h
  | traitObject bs => simp [Arg.tryFrom] at h
  | tuple0 => simp [Arg.tryFrom] at h
  | otherTy => simp [Arg.tryFrom] at h
  | ref m elem =>
    cases m with
    | true => simp [Arg.tryFrom] at h
    | false =>
      by_cases h1 : is_single_connection elem
      · simp [Arg.tryFrom, h1] at h
      · by_cases h2 : is_pool elem
        · simp [Arg.tryFrom, h1, h2] at h
        · simp [isEnvReference, is_connection_arg, h1, h2]

/-- A fold that never sees an environment reference ends with the
environment argument it started with (or the default when none). -/
theorem jobArgsGo_no_env_default (inputs : List FnArg) :
    ∀ (c : ConnectionArg) (acc : List PatType) (ja : JobArgs),
    (∀ pt, FnArg.typed pt ∈ inputs → isEnvReference pt.ty = false) →
    jobArgsGo none c acc inputs = .ok ja → ja.env_arg = EnvArg.defaultArg := by
  induction inputs with
  | nil =>
    intro c acc ja hno h
    simp only [jobArgsGo, Except.ok.injEq] at h
    subst h
    rfl
  | cons fnArg rest ih =>
    intro c acc ja hno h
    cases fnArg with
    | receiver => simp [jobArgsGo] at h
    | typed pt =>
      have hno' : ∀ pt', FnArg.typed pt' ∈ rest → isEnvReference pt'.ty = false :=
        fun pt' hm => hno pt' (List.mem_cons_of_mem _ hm)
      have hpt : isEnvReference pt.ty = false := hno pt (List.mem_cons_self _ _)
      obtain ⟨pat, ty⟩ := pt
      cases pat with
      | wild => simp [jobArgsGo] at h
      | complex => simp [jobArgsGo] at h
      | ident name =>
        cases ha : Arg.tryFrom ⟨.ident name, ty⟩ with
        | error e => simp [jobArgsGo, ha] at h
        | ok arg =>
          cases arg with
          | env a' =>
            have := argTryFrom_env_ref ⟨.ident name, ty⟩ a' ha
            rw [this] at hpt
            cases hpt
          | connection c' =>
            cases c with
            | noneArg =>
              exact ih c' acc ja hno' (by simpa [jobArgsGo, ha] using h)
            | singleConnection p => simp [jobArgsGo, ha] at h
            | pool p t => simp [jobArgsGo, ha] at h
          | normal p =>
            exact ih c (p :: acc) ja hno' (by simpa [jobArgsGo, ha] using h)

/-- With no environment argument recorded yet, the fold over a span of
arguments that contains no environment reference keeps `envArg = none`
(failing or recursing), so the first environment reference encountered
afterwards is the one recorded. -/
theorem jobArgsGo_first_env (pre : List FnArg) :
    ∀ (c : ConnectionArg) (acc : List PatType) (name : String) (ty : Ty)
      (rest : List FnArg) (ja : JobArgs),
    (∀ pt, FnArg.typed pt ∈ pre → isEnvReference pt.ty = false) →
    is_connection_arg ty = false →
    jobArgsGo none c acc (pre ++ .typed ⟨.ident name, .ref false ty⟩ :: rest) = .ok ja →
    ja.env_arg = ⟨.ident name, ty⟩ := by
  induction pre with
  | nil =>
    intro c acc name ty rest ja hno hconn h
    have h1 : is_single_connection ty = false := by
      simp [is_connection_arg, Bool.or_eq_false_iff] at hconn
      exact hconn.1
    have h2 : is_pool ty = false := by
      simp [is_connection_arg, Bool.or_eq_false_iff] at hconn
      exact hconn.2
    have hstep : jobArgsGo (some ⟨.ident name, ty⟩) c acc rest = .ok ja := by
      simpa [jobArgsGo, Arg.tryFrom, h1, h2] using h
    exact jobArgsGo_env_fixed _ _ _ _ _ hstep
  | cons fnArg pre' ih =>
    intro c acc name ty rest ja hno hconn h
    cases fnArg with
    | receiver => simp [jobArgsGo] at h
    | typed pt =>
      have hpt : isEnvReference pt.ty = false := hno pt (List.mem_cons_self _ _)
      have hno' : ∀ pt', FnArg.typed pt' ∈ pre' → isEnvReference pt'.ty = false :=
        fun pt' hm => hno pt' (List.mem_cons_of_mem _ hm)
      obtain ⟨pat, ty'⟩ := pt
      cases pat with
      | wild => simp [jobArgsGo] at h
      | complex => simp [jobArgsGo] at h
      | ident nm =>
        cases ha : Arg.tryFrom ⟨.ident nm, ty'⟩ with
        | error e => simp [jobArgsGo, ha] at h
        | ok arg =>
          cases arg with
          | env a' =>
            have := argTryFrom_env_ref ⟨.ident nm, ty'⟩ a' ha
            rw [this] at hpt
            cases hpt
          | connection c' =>
            cases c with
            | noneArg =>
              exact ih c' acc name ty rest ja hno' hconn
                (by simpa [jobArgsGo, ha] using h)
            | singleConnection p => simp [jobArgsGo, ha] at h
            | pool p t => simp [jobArgsGo, ha] at h
          | normal p =>
            exact ih c (p :: acc) name ty rest ja hno' hconn
              (by simpa [jobArgsGo, ha] using h)

/-- Claim C9 amended: the environment parameter is the first parameter, in
declaration order, whose type is a (non-`mut`, non-connection) reference —
so the first parameter, if such a reference, is the environment, but a
handler whose first parameter is not a reference can still receive a
non-unit environment from a later reference parameter. When no parameter is
such a reference, the environment type defaults to the unit type. -/
theorem c9_env_parameter_selection :
    (∀ (pre : List FnArg) (name : String) (ty : Ty) (rest : List FnArg) (ja : JobArgs),
      (∀ pt, FnArg.typed pt ∈ pre → isEnvReference pt.ty = false) →
      is_connection_arg ty = false →
      JobArgs.tryFrom (pre ++ .typed ⟨.ident name, .ref false ty⟩ :: rest) = .ok ja →
      ja.env_arg = ⟨.ident name, ty⟩) ∧
    (∀ (inputs : List FnArg) (ja : JobArgs),
      (∀ pt, FnArg.typed pt ∈ inputs → isEnvReference pt.ty = false) →
      JobArgs.tryFrom inputs = .ok ja →
      ja.env_arg.ty = Ty.tuple0) := by
  constructor
  · intro pre name ty rest ja hno hconn h
    exact jobArgsGo_first_env pre .noneArg [] name ty rest ja hno hconn h
  · intro inputs ja hno h
    have := jobArgsGo_no_env_default inputs .noneArg [] ja hno h
    rw [this]
    rfl

/-- Witness for the amended claim C9: a handler `fn f(x: i32, env: &MyEnv)`
records `MyEnv` as the environment type even though its first parameter is
not a reference, and a handler `fn g(x: i32)` with no reference parameter
gets the unit environment type. -/
theorem c9_env_parameter_selection_witness :
    ((⟨⟨.ident "env", .path ⟨"MyEnv", true⟩⟩, .noneArg,
        [⟨.ident "x", .path ⟨"i32", true⟩⟩]⟩ : JobArgs).env_arg
      = ⟨.ident "env", .path ⟨"MyEnv", true⟩⟩) ∧
    ((⟨EnvArg.defaultArg, .noneArg, [⟨.ident "x", .path ⟨"i32", true⟩⟩]⟩ : JobArgs).env_arg.ty
      = Ty.tuple0) := by
  constructor
  · exact c9_env_parameter_selection.1 [.typed ⟨.ident "x", .path ⟨"i32", true⟩⟩] "env"
      (.path ⟨"MyEnv", true⟩) [] _
      (by intro pt hm; simp at hm; subst hm; rfl) rfl rfl
  · exact c9_env_parameter_selection.2 [.typed ⟨.ident "x", .path ⟨"i32", true⟩⟩] _
      (by intro pt hm; simp at hm; subst hm; rfl) rfl

end Codegen

/-! Concrete samples and witnesses -/

/-- A sample freshly enqueued row. -/
def sampleJob : BackgroundJob := ⟨1, "Foo", "null", 0, 0⟩

/-- A worker attempt that locks `sampleJob` and whose handler succeeds. -/
def sampleInputOk : WorkerInput :=
  ⟨.ok (), .ok (some sampleJob), fun _ => .ok, .ok (), .ok ()⟩

/-- A worker attempt that locks `sampleJob` and whose handler panics with a
static string payload. -/
def sampleInputPanic : WorkerInput :=
  ⟨.ok (), .ok (some sampleJob), fun _ => .panicked (.staticStr "boom"), .ok (), .ok ()⟩

/-- A worker attempt whose handler succeeds but whose row deletion fails. -/
def sampleInputDeleteFails : WorkerInput :=
  ⟨.ok (), .ok (some sampleJob), fun _ => .ok, .error (.databaseError "disk full"), .ok ()⟩

/-- A registry entry recorded for environment type identity 1. -/
def sampleVTable : JobVTable Unit Unit :=
  ⟨1, "Foo", fun _ => .ok (), fun _ _ => .ok ()⟩

/-- Witness for claim C1 at a one-row table and a succeeding handler. -/
theorem c1_lock_finalize_witness :
    sampleInputOk.lockResult = .ok (some sampleJob) ∧
    (get_single_job [sampleJob] 100 sampleInputOk).table
      = delete_successful_job [sampleJob] sampleJob.id :=
  ⟨rfl, (c1_lock_finalize [sampleJob] 100 sampleInputOk sampleJob rfl rfl rfl rfl).1 rfl⟩

/-- Witness for claim C2 at an attempt whose locking query finds no row. -/
theorem c2_one_event_per_worker_witness :
    emptyQueueWorkerInput.connResult = .ok () ∧
    emptyQueueWorkerInput.lockResult = .ok none ∧
    (get_single_job [] 100 emptyQueueWorkerInput).trace = [.send .NoJobAvailable] :=
  ⟨rfl, rfl, (c2_one_event_per_worker [] 100 emptyQueueWorkerInput).2.2.1 rfl rfl⟩

/-- Witness for claim C3 at a timeout after the first batch of five. -/
theorem c3_orchestrator_event_handling_witness :
    run_all_pending_jobs 5 [.timeout] 0 [0] = (.fetchErr .NoMessageReceived, 5) :=
  (c3_orchestrator_event_handling 5 0 [0]).2.2.2.2 []

/-- Witness for claim C5 at an empty registry: the tag `"Foo"` is unknown
and the row's retry counter is bumped. -/
theorem c5_unknown_job_type_witness :
    Registry.get ([] : List (String × JobVTable Unit Unit)) sampleJob.job_type = none ∧
    (run_single_job [sampleJob] 100 ([] : List (String × JobVTable Unit Unit)) ⟨0, ()⟩
        (.ok ()) (.ok (some sampleJob)) (.ok ()) (.ok ())).table
      = update_failed_job [sampleJob] sampleJob.id 100 :=
  ⟨rfl, (c5_unknown_job_type [sampleJob] 100 [] ⟨0, ()⟩ sampleJob rfl).2.1⟩

/-- Witness for claim C6 at a panicking handler: no worker panic, retries
bumped. -/
theorem c6_panic_caught_witness :
    sampleInputPanic.handlerOutcome sampleJob = .panicked (.staticStr "boom") ∧
    (get_single_job [sampleJob] 100 sampleInputPanic).panicMsg = none ∧
    (get_single_job [sampleJob] 100 sampleInputPanic).table
      = update_failed_job [sampleJob] sampleJob.id 100 :=
  ⟨rfl,
   (c6_panic_caught [sampleJob] 100 sampleInputPanic sampleJob (.staticStr "boom")
      rfl rfl rfl rfl).2.2.1,
   (c6_panic_caught [sampleJob] 100 sampleInputPanic sampleJob (.staticStr "boom")
      rfl rfl rfl rfl).2.2.2.1⟩

/-- Witness for claim C7 at a mismatched environment type identity. -/
theorem c7_environment_isolation_witness :
    (2 : Nat) ≠ sampleVTable.env_type ∧
    perform_job sampleVTable "null" (⟨2, ()⟩ : DynEnv Unit)
      = (.error incorrectEnvironmentMsg, false) :=
  ⟨by decide,
   ((c7_environment_isolation [sampleVTable] 1 sampleVTable "null" ⟨2, ()⟩).2.2
      (by decide)).1⟩

/-- Witness for claim C8: three panicked threads yield the opaque error
without querying the count, and a zero count on an empty table succeeds. -/
theorem c8_check_for_failed_jobs_witness :
    (0 < 3 ∧
      check_for_failed_jobs 3 (.ok ()) (.ok ()) [] 100 =
        ⟨.error (.otherErr (toString 3 ++ " threads panicked")), false⟩) ∧
    (failed_job_count [] 100 = 0 ∧
      check_for_failed_jobs 0 (.ok ()) (.ok ()) [] 100 = ⟨.ok (), true⟩) :=
  ⟨⟨by decide, (c8_check_for_failed_jobs 3 (.ok ()) (.ok ()) [] 100).1 (by decide)⟩,
   ⟨rfl, ((c8_check_for_failed_jobs 0 (.ok ()) (.ok ()) [] 100).2 rfl rfl rfl).1 rfl⟩⟩

/-- Witness for claim C10 at a failed row deletion after a successful
handler: table untouched, worker panics. -/
theorem c10_failed_finalize_panics_witness :
    sampleInputDeleteFails.deleteResult = .error (.databaseError "disk full") ∧
    (get_single_job [sampleJob] 100 sampleInputDeleteFails).table = [sampleJob] ∧
    (get_single_job [sampleJob] 100 sampleInputDeleteFails).panicMsg =
      some ("Failed to update job"
        ++ (": " ++ (DieselError.databaseError "disk full").debugStr)) :=
  ⟨rfl,
   (c10_failed_finalize_panics [sampleJob] 100 sampleInputDeleteFails sampleJob
      (.databaseError "disk full") rfl rfl rfl (by decide) (Or.inl rfl)).1,
   (c10_failed_finalize_panics [sampleJob] 100 sampleInputDeleteFails sampleJob
      (.databaseError "disk full") rfl rfl rfl (by decide) (Or.inl rfl)).2⟩

end Swirl
